import Mathlib

/-!
Verification development for the email-verification Lambda
(`src/index.js` of `serverless-fork`).

The handler is embedded as a pure function.  External collaborators
(DynamoDB, SES, the random source of the `uuid` library, the clock) are
modelled as an explicit `World` of oracle responses; every outbound
call the handler makes is recorded in a trace of `Effect`s, so that
"no email is dispatched" and "no record is written" are statements
about the trace.
-/

namespace EmailVerif

/-- A DynamoDB attribute value: the code only stores strings and numbers. -/
inductive AttrVal where
  | s (v : String)
  | n (v : Nat)
  deriving DecidableEq, Repr

/-- A DynamoDB item, keeping attribute names (needed to state claims about
the field names of the record). -/
abbrev Item : Type := List (String × AttrVal)

/-- The parsed SNS message body `{email, firstName, lastName, token?}`.
`token` is `Option` because the inbound event may or may not carry one
(the handler, as written, never reads it). -/
structure SnsMessage where
  email : String
  firstName : String
  lastName : String
  token : Option String
  deriving DecidableEq, Repr

/-- Outcome of `JSON.parse(event.Records[0].Sns.Message)`: either the parse
throws (malformed payload) or yields a message object. -/
inductive SnsBody where
  | malformed
  | wellFormed (m : SnsMessage)
  deriving DecidableEq, Repr

/-- One entry of `event.Records`. -/
structure SnsRecord where
  message : SnsBody
  deriving DecidableEq, Repr

/-- The inbound Lambda event: `event.Records` is a list;
the handler indexes `[0]`. -/
structure SnsEvent where
  records : List SnsRecord
  deriving DecidableEq, Repr

/-- Environment configuration (`DOMAIN`, `SES_FROM_EMAIL`, `DYNAMODB_TABLE`). -/
structure Config where
  domain : String
  fromEmail : String
  tableName : String
  deriving DecidableEq, Repr

/-- The defaults hard-coded in `src/index.js` lines 17-19. -/
def defaultConfig : Config :=
  ⟨"dev.ritimoradiya.me", "noreply@ritimoradiya.me", "EmailVerificationTracking"⟩

/-- The SES `SendEmailCommand` parameters built by `sendVerificationEmail`. -/
structure SesRequest where
  source : String
  toAddresses : List String
  subjectData : String
  subjectCharset : String
  textData : String
  textCharset : String
  htmlData : String
  htmlCharset : String
  deriving DecidableEq, Repr

/-- Result of the DynamoDB `QueryCommand`: the call may throw, and on
success `result.Items` may be absent (`none`) or a list of items. -/
inductive QueryOutcome where
  | thrown
  | ok (items : Option (List Item))

/-- Result of an external call that either succeeds or throws. -/
inductive CallOutcome where
  | thrown
  | ok
  deriving DecidableEq, Repr

/-- The external world: oracle responses of DynamoDB, SES, the 16 random
bytes the `uuid` library draws for `uuidv4()`, the clock (`Date.now()` in
milliseconds) and the ISO-8601 renderer of the platform (`Date.toISOString`). -/
structure World where
  query : String → String → QueryOutcome
  send : SesRequest → CallOutcome
  put : String → Item → CallOutcome
  randomBytes : List Nat
  nowMs : Nat
  isoString : Nat → String

/-- The JS errors the handler can propagate. -/
inductive JsError where
  | typeError
  | parseError
  | sendError
  | putError
  deriving DecidableEq, Repr

/-- The handler return value, a pair of statusCode and body. -/
structure Response where
  statusCode : Nat
  body : String
  deriving DecidableEq, Repr

/-- An observable outbound call made during one invocation. -/
inductive Effect where
  | query (tableName : String) (email : String)
  | sesSend (req : SesRequest)
  | put (tableName : String) (item : Item)
  deriving DecidableEq

/- ### encodeURIComponent -/

/-- Characters `encodeURIComponent` leaves unescaped:
`A-Z a-z 0-9 - _ . ! ~ * ( )` and the apostrophe (codepoint 39). -/
def isUnreservedUri (c : Char) : Bool :=
  let n := c.toNat
  (48 ≤ n && n ≤ 57) || (65 ≤ n && n ≤ 90) || (97 ≤ n && n ≤ 122) ||
  n == 45 || n == 95 || n == 46 || n == 33 || n == 126 || n == 42 ||
  n == 39 || n == 40 || n == 41

/-- Uppercase hex digit (as `encodeURIComponent` emits). -/
def hexUpperDigit (n : Nat) : Char :=
  "0123456789ABCDEF".data.getD n '0'

/-- UTF-8 bytes of a character. -/
def utf8Bytes (c : Char) : List Nat :=
  let n := c.toNat
  if n < 128 then [n]
  else if n < 2048 then [192 + n / 64, 128 + n % 64]
  else if n < 65536 then [224 + n / 4096, 128 + n / 64 % 64, 128 + n % 64]
  else [240 + n / 262144, 128 + n / 4096 % 64, 128 + n / 64 % 64, 128 + n % 64]

/-- Percent-escape of one byte, e.g. 64 ↦ `%40`. -/
def percentByte (b : Nat) : List Char :=
  ['%', hexUpperDigit (b / 16), hexUpperDigit (b % 16)]

/-- JavaScript `encodeURIComponent`. -/
def encodeURIComponent (str : String) : String :=
  String.mk (str.data.flatMap fun c =>
    if isUnreservedUri c then [c] else (utf8Bytes c).flatMap percentByte)

/- ### uuidv4, as produced by the `uuid` npm library -/

/-- Lowercase hex digit (the `uuid` library renders lowercase). -/
def hexLowerDigit (n : Nat) : Char :=
  "0123456789abcdef".data.getD n '0'

/-- Two lowercase hex digits of a byte. -/
def byteToHex (b : Nat) : List Char :=
  [hexLowerDigit (b / 16), hexLowerDigit (b % 16)]

/-- The 8-4-4-4-12 dashed hex rendering of 16 bytes. -/
def uuidStringify (bs : List Nat) : List Char :=
  match bs with
  | [b0, b1, b2, b3, b4, b5, b6, b7, b8, b9, b10, b11, b12, b13, b14, b15] =>
      byteToHex b0 ++ byteToHex b1 ++ byteToHex b2 ++ byteToHex b3 ++ ['-'] ++
      byteToHex b4 ++ byteToHex b5 ++ ['-'] ++
      byteToHex b6 ++ byteToHex b7 ++ ['-'] ++
      byteToHex b8 ++ byteToHex b9 ++ ['-'] ++
      byteToHex b10 ++ byteToHex b11 ++ byteToHex b12 ++ byteToHex b13 ++
      byteToHex b14 ++ byteToHex b15
  | _ => []

/-- The version/variant masking of uuid v4: `bytes[6] = (bytes[6] & 0x0f) | 0x40`
and `bytes[8] = (bytes[8] & 0x3f) | 0x80`. -/
def v4Mask (bs : List Nat) : List Nat :=
  match bs with
  | [b0, b1, b2, b3, b4, b5, b6, b7, b8, b9, b10, b11, b12, b13, b14, b15] =>
      [b0, b1, b2, b3, b4, b5, (b6 &&& 15) ||| 64, b7, (b8 &&& 63) ||| 128,
       b9, b10, b11, b12, b13, b14, b15]
  | _ => bs

/-- The function `uuidv4` applied to the 16 random bytes the library draws. -/
def uuidv4 (bs : List Nat) : String :=
  String.mk (uuidStringify (v4Mask bs))

/- ### The email bodies (exact template strings of `sendVerificationEmail`) -/

/-- The plain-text body template with `firstName` and `verificationLink`
substituted. -/
def textBody (firstName verificationLink : String) : String :=
  "Hello " ++ firstName ++
  ",\n\nThank you for creating an account. Please verify your email address by clicking the link below:\n\n" ++
  verificationLink ++
  "\n\nThis link will expire in 1 minute.\n\nIf you did not create an account, please ignore this email.\n\nBest regards,\nCSYE6225 Team"

/-- The HTML body template with `firstName` and `verificationLink`
substituted (braces of the CSS written as \x7b and \x7d). -/
def htmlBody (firstName verificationLink : String) : String :=
  "\n<!DOCTYPE html>\n<html>\n<head>\n  <style>\n    body \x7b font-family: Arial, sans-serif; line-height: 1.6; color: #333; \x7d\n    .container \x7b max-width: 600px; margin: 0 auto; padding: 20px; \x7d\n    .button \x7b \n      display: inline-block; \n      padding: 12px 24px; \n      background-color: #007bff; \n      color: white; \n      text-decoration: none; \n      border-radius: 4px; \n      margin: 20px 0;\n    \x7d\n    .footer \x7b margin-top: 30px; font-size: 12px; color: #666; \x7d\n  </style>\n</head>\n<body>\n  <div class=\x22container\x22>\n    <h2>Verify Your Email Address</h2>\n    <p>Hello " ++
  firstName ++
  ",</p>\n    <p>Thank you for creating an account. Please verify your email address by clicking the button below:</p>\n    <a href=\x22" ++
  verificationLink ++
  "\x22 class=\x22button\x22>Verify Email</a>\n    <p>Or copy and paste this link into your browser:</p>\n    <p style=\x22word-break: break-all; color: #007bff;\x22>" ++
  verificationLink ++
  "</p>\n    <p><strong>This link will expire in 1 minute.</strong></p>\n    <p>If you did not create an account, please ignore this email.</p>\n    <div class=\x22footer\x22>\n      <p>Best regards,<br>CSYE6225 Team</p>\n    </div>\n  </div>\n</body>\n</html>"

/-- The SES command parameters of `sendVerificationEmail` (the pure part of
`sendVerificationEmail`; the dispatch itself is `World.send`). -/
def sendVerificationEmail (fromEmail email firstName verificationLink : String) :
    SesRequest :=
  { source := fromEmail
    toAddresses := [email]
    subjectData := "Verify Your Email Address"
    subjectCharset := "UTF-8"
    textData := textBody firstName verificationLink
    textCharset := "UTF-8"
    htmlData := htmlBody firstName verificationLink
    htmlCharset := "UTF-8" }

/- ### checkDuplicateEmail, trackEmailSent, handler -/

/-- The duplicate guard `checkDuplicateEmail`: queries the table by email; returns
`result.Items && result.Items.length > 0` (absent `Items` is falsy), and on a
thrown query returns `false` (fail open, line 84 of the source). -/
def checkDuplicateEmail (cfg : Config) (w : World) (email : String) : Bool :=
  match w.query cfg.tableName email with
  | QueryOutcome.thrown => false
  | QueryOutcome.ok none => false
  | QueryOutcome.ok (some items) => decide (items.length > 0)

/-- The item `trackEmailSent` writes:
`{email, token, sentAt: new Date().toISOString(), ttl: floor(Date.now()/1000) + 60*60*24}`. -/
def trackEmailSent (w : World) (email token : String) : Item :=
  [("email", AttrVal.s email),
   ("token", AttrVal.s token),
   ("sentAt", AttrVal.s (w.isoString w.nowMs)),
   ("ttl", AttrVal.n (w.nowMs / 1000 + 60 * 60 * 24))]

/-- The serialized JSON body reporting that the email was already sent. -/
def alreadySentBody : String := "\x7b\x22message\x22:\x22Email already sent\x22\x7d"

/-- The serialized JSON body reporting a successful send. -/
def sentOkBody : String := "\x7b\x22message\x22:\x22Email sent successfully\x22\x7d"

/-- The verification link of line 46:
`https://${DOMAIN}/v1/user/verify?email=${encodeURIComponent(email)}&token=${token}`. -/
def verificationLinkOf (domain email token : String) : String :=
  "https://" ++ domain ++ "/v1/user/verify?email=" ++
  encodeURIComponent email ++ "&token=" ++ token

/-- The Lambda handler: returns the result (`ok` response or thrown error)
together with the trace of outbound calls, in order. -/
def handler (cfg : Config) (w : World) (event : SnsEvent) :
    Except JsError Response × List Effect :=
  match event.records with
  | [] => (Except.error JsError.typeError, [])
  | r :: _ =>
    match r.message with
    | SnsBody.malformed => (Except.error JsError.parseError, [])
    | SnsBody.wellFormed m =>
      if checkDuplicateEmail cfg w m.email then
        (Except.ok ⟨200, alreadySentBody⟩, [Effect.query cfg.tableName m.email])
      else
        let token := uuidv4 w.randomBytes
        let verificationLink := verificationLinkOf cfg.domain m.email token
        let req := sendVerificationEmail cfg.fromEmail m.email m.firstName verificationLink
        match w.send req with
        | CallOutcome.thrown =>
            (Except.error JsError.sendError,
             [Effect.query cfg.tableName m.email, Effect.sesSend req])
        | CallOutcome.ok =>
            let item := trackEmailSent w m.email token
            match w.put cfg.tableName item with
            | CallOutcome.thrown =>
                (Except.error JsError.putError,
                 [Effect.query cfg.tableName m.email, Effect.sesSend req,
                  Effect.put cfg.tableName item])
            | CallOutcome.ok =>
                (Except.ok ⟨200, sentOkBody⟩,
                 [Effect.query cfg.tableName m.email, Effect.sesSend req,
                  Effect.put cfg.tableName item])


/- ### Entropy of the generated token

`tokenOfEntropy` maps the 122 random bits that survive the uuid v4
version/variant masking (bytes drawn by the library, low nibble of byte 6,
low 6 bits of byte 8 replaced) to the rendered token string.  Its
injectivity shows the token space has at least 2 ^ 122 values and that
invocations drawing different surviving bits yield different tokens. -/

theorem hexLowerDigit_fin_inj :
    ∀ d d' : Fin 16, hexLowerDigit d.val = hexLowerDigit d'.val → d = d' := by decide

theorem or64_eq (x : Nat) (hx : x < 16) : (x &&& 15) ||| 64 = x + 64 := by
  interval_cases x <;> rfl

theorem or128_eq (x : Nat) (hx : x < 64) : (x &&& 63) ||| 128 = x + 128 := by
  interval_cases x <;> rfl

theorem byteHex_inj (x y : Nat) (hx : x < 256) (hy : y < 256)
    (h1 : hexLowerDigit (x / 16) = hexLowerDigit (y / 16))
    (h2 : hexLowerDigit (x % 16) = hexLowerDigit (y % 16)) : x = y := by
  have e1 := hexLowerDigit_fin_inj ⟨x / 16, by omega⟩ ⟨y / 16, by omega⟩ h1
  have e2 := hexLowerDigit_fin_inj ⟨x % 16, by omega⟩ ⟨y % 16, by omega⟩ h2
  have v1 : x / 16 = y / 16 := congrArg Fin.val e1
  have v2 : x % 16 = y % 16 := congrArg Fin.val e2
  omega

def entropyBytes (n : Nat) : List Nat :=
  [n % 256, n / 2 ^ 8 % 256, n / 2 ^ 16 % 256, n / 2 ^ 24 % 256,
   n / 2 ^ 32 % 256, n / 2 ^ 40 % 256,
   n / 2 ^ 48 % 16,
   n / 2 ^ 52 % 256,
   n / 2 ^ 60 % 64,
   n / 2 ^ 66 % 256, n / 2 ^ 74 % 256, n / 2 ^ 82 % 256, n / 2 ^ 90 % 256,
   n / 2 ^ 98 % 256, n / 2 ^ 106 % 256, n / 2 ^ 114 % 256]

def tokenOfEntropy (n : Fin (2 ^ 122)) : String :=
  uuidv4 (entropyBytes n.val)

theorem shiftStep (x y d e de : Nat) (hde : d * e = de)
    (hmod : x / d % e = y / d % e) (hdiv : x / de = y / de) : x / d = y / d := by
  subst hde
  have hx := Nat.div_div_eq_div_mul x d e
  have hy := Nat.div_div_eq_div_mul y d e
  calc x / d = e * (x / d / e) + x / d % e := (Nat.div_add_mod _ e).symm
    _ = e * (y / d / e) + y / d % e := by rw [hmod, hx, hy, hdiv]
    _ = y / d := Nat.div_add_mod _ e

theorem topStep (x y : Nat) (hx : x < 2 ^ 122) (hy : y < 2 ^ 122)
    (h : x / 2 ^ 114 % 256 = y / 2 ^ 114 % 256) : x / 2 ^ 114 = y / 2 ^ 114 := by
  have hx' : x / 2 ^ 114 < 256 := Nat.div_lt_of_lt_mul (by omega)
  have hy' : y / 2 ^ 114 < 256 := Nat.div_lt_of_lt_mul (by omega)
  rwa [Nat.mod_eq_of_lt hx', Nat.mod_eq_of_lt hy'] at h

theorem combineStep (x y : Nat) (hmod : x % 256 = y % 256)
    (hdiv : x / 2 ^ 8 = y / 2 ^ 8) : x = y := by omega

set_option maxHeartbeats 1000000 in
theorem tokenOfEntropy_injective : Function.Injective tokenOfEntropy := by
  intro n n' he
  have hl : uuidStringify (v4Mask (entropyBytes n.val)) =
      uuidStringify (v4Mask (entropyBytes n'.val)) := congrArg String.data he
  rw [entropyBytes, entropyBytes] at hl
  rw [v4Mask, v4Mask] at hl
  rw [or64_eq _ (by omega), or64_eq _ (by omega),
      or128_eq _ (by omega), or128_eq _ (by omega)] at hl
  rw [uuidStringify, uuidStringify] at hl
  simp only [byteToHex] at hl
  simp only [List.cons_append, List.nil_append] at hl
  simp only [List.cons.injEq, eq_self_iff_true, and_true, true_and] at hl
  obtain ⟨a0, b0, a1, b1, a2, b2, a3, b3, a4, b4, a5, b5, a6, b6, a7, b7,
    a8, b8, a9, b9, a10, b10, a11, b11, a12, b12, a13, b13, a14, b14, a15, b15⟩ := hl
  have e0 := byteHex_inj _ _ (by omega) (by omega) a0 b0
  have e1 := byteHex_inj _ _ (by omega) (by omega) a1 b1
  have e2 := byteHex_inj _ _ (by omega) (by omega) a2 b2
  have e3 := byteHex_inj _ _ (by omega) (by omega) a3 b3
  have e4 := byteHex_inj _ _ (by omega) (by omega) a4 b4
  have e5 := byteHex_inj _ _ (by omega) (by omega) a5 b5
  have f6 := byteHex_inj _ _ (by omega) (by omega) a6 b6
  have e7 := byteHex_inj _ _ (by omega) (by omega) a7 b7
  have f8 := byteHex_inj _ _ (by omega) (by omega) a8 b8
  have e9 := byteHex_inj _ _ (by omega) (by omega) a9 b9
  have e10 := byteHex_inj _ _ (by omega) (by omega) a10 b10
  have e11 := byteHex_inj _ _ (by omega) (by omega) a11 b11
  have e12 := byteHex_inj _ _ (by omega) (by omega) a12 b12
  have e13 := byteHex_inj _ _ (by omega) (by omega) a13 b13
  have e14 := byteHex_inj _ _ (by omega) (by omega) a14 b14
  have e15 := byteHex_inj _ _ (by omega) (by omega) a15 b15
  have e6 : n.val / 2 ^ 48 % 16 = n'.val / 2 ^ 48 % 16 := by omega
  have e8 : n.val / 2 ^ 60 % 64 = n'.val / 2 ^ 60 % 64 := by omega
  have s15 := topStep n.val n'.val n.isLt n'.isLt e15
  have s14 := shiftStep n.val n'.val (2 ^ 106) 256 (2 ^ 114) (by norm_num) e14 s15
  have s13 := shiftStep n.val n'.val (2 ^ 98) 256 (2 ^ 106) (by norm_num) e13 s14
  have s12 := shiftStep n.val n'.val (2 ^ 90) 256 (2 ^ 98) (by norm_num) e12 s13
  have s11 := shiftStep n.val n'.val (2 ^ 82) 256 (2 ^ 90) (by norm_num) e11 s12
  have s10 := shiftStep n.val n'.val (2 ^ 74) 256 (2 ^ 82) (by norm_num) e10 s11
  have s9 := shiftStep n.val n'.val (2 ^ 66) 256 (2 ^ 74) (by norm_num) e9 s10
  have s8 := shiftStep n.val n'.val (2 ^ 60) 64 (2 ^ 66) (by norm_num) e8 s9
  have s7 := shiftStep n.val n'.val (2 ^ 52) 256 (2 ^ 60) (by norm_num) e7 s8
  have s6 := shiftStep n.val n'.val (2 ^ 48) 16 (2 ^ 52) (by norm_num) e6 s7
  have s5 := shiftStep n.val n'.val (2 ^ 40) 256 (2 ^ 48) (by norm_num) e5 s6
  have s4 := shiftStep n.val n'.val (2 ^ 32) 256 (2 ^ 40) (by norm_num) e4 s5
  have s3 := shiftStep n.val n'.val (2 ^ 24) 256 (2 ^ 32) (by norm_num) e3 s4
  have s2 := shiftStep n.val n'.val (2 ^ 16) 256 (2 ^ 24) (by norm_num) e2 s3
  have s1 := shiftStep n.val n'.val (2 ^ 8) 256 (2 ^ 16) (by norm_num) e1 s2
  exact Fin.ext (combineStep n.val n'.val e0 s1)


/- ### Concrete worlds and messages used by witnesses and counterexamples -/

/-- A world where the duplicate query finds nothing and every call succeeds;
the random source yields sixteen zero bytes and the clock reads epoch 0. -/
def wPlain : World :=
  ⟨fun _ _ => QueryOutcome.ok (some []), fun _ => CallOutcome.ok,
   fun _ _ => CallOutcome.ok, List.replicate 16 0, 0,
   fun _ => "1970-01-01T00:00:00.000Z"⟩

/-- An existing tracking record for `john@x.com`. -/
def johnItem : Item :=
  [("email", AttrVal.s "john@x.com"), ("token", AttrVal.s "t0"),
   ("sentAt", AttrVal.s "2026-01-01T00:00:00.000Z"), ("ttl", AttrVal.n 3600)]

/-- A world whose tracking store already holds a record for the email. -/
def wDup : World :=
  { wPlain with query := fun _ _ => QueryOutcome.ok (some [johnItem]) }

/-- A world where the duplicate query throws. -/
def wThrow : World :=
  { wPlain with query := fun _ _ => QueryOutcome.thrown }

/-- A world where the SES dispatch throws. -/
def wSendFail : World :=
  { wPlain with send := fun _ => CallOutcome.thrown }

/-- A world with a nonzero clock (for the record-shape counterexample). -/
def wLater : World :=
  { wPlain with nowMs := 1000000 }

/-- The scenario message of the spec, carrying no token. -/
def mJohn : SnsMessage := ⟨"john@x.com", "John", "Doe", none⟩

/-- A message that carries an upstream-supplied token. -/
def mWithToken : SnsMessage := ⟨"john@x.com", "John", "Doe", some "T"⟩

/-- A second message, used by the record-shape counterexample. -/
def mJane : SnsMessage := ⟨"jane@x.com", "Jane", "Roe", none⟩

/-- The uuid rendered from sixteen zero random bytes. -/
def zeroUuid : String := "00000000-0000-4000-8000-000000000000"

/-- A string is an infix of any appending around it (on character lists). -/
theorem string_infix (a b c : String) : List.IsInfix b.data (a ++ b ++ c).data := by
  rw [String.data_append, String.data_append]
  exact List.infix_append _ _ _

/- ### Claims -/

/-- Claim C2: for every event whose email has at least one record in the
tracking store, the handler issues only the duplicate query (no SES send, no
DynamoDB put) and returns status 200 with the "Email already sent" body. -/
theorem duplicate_event_skips_send (cfg : Config) (w : World) (m : SnsMessage)
    (rest : List SnsRecord) (items : List Item)
    (hq : w.query cfg.tableName m.email = QueryOutcome.ok (some items))
    (hne : items ≠ []) :
    handler cfg w ⟨⟨SnsBody.wellFormed m⟩ :: rest⟩ =
      (Except.ok ⟨200, alreadySentBody⟩, [Effect.query cfg.tableName m.email]) := by
  have hdup : checkDuplicateEmail cfg w m.email = true := by
    simp only [checkDuplicateEmail, hq, decide_eq_true_eq]
    exact List.length_pos.mpr hne
  simp [handler, hdup]

/-- Witness for C2 at a concrete duplicate world. -/
theorem duplicate_event_skips_send_witness :
    handler defaultConfig wDup ⟨[⟨SnsBody.wellFormed mJohn⟩]⟩ =
      (Except.ok ⟨200, alreadySentBody⟩,
       [Effect.query "EmailVerificationTracking" "john@x.com"]) :=
  duplicate_event_skips_send defaultConfig wDup mJohn [] [johnItem] rfl (by decide)

/-- Claim C3: if the duplicate query throws, `checkDuplicateEmail` resolves
to `false` (the error is swallowed) and the handler goes on to dispatch the
verification email. -/
theorem duplicate_guard_fails_open (cfg : Config) (w : World) (m : SnsMessage)
    (rest : List SnsRecord)
    (hq : w.query cfg.tableName m.email = QueryOutcome.thrown) :
    checkDuplicateEmail cfg w m.email = false ∧
    Effect.sesSend (sendVerificationEmail cfg.fromEmail m.email m.firstName
        (verificationLinkOf cfg.domain m.email (uuidv4 w.randomBytes))) ∈
      (handler cfg w ⟨⟨SnsBody.wellFormed m⟩ :: rest⟩).2 := by
  have hdup : checkDuplicateEmail cfg w m.email = false := by
    simp [checkDuplicateEmail, hq]
  refine ⟨hdup, ?_⟩
  simp only [handler, hdup]
  cases hsend : w.send (sendVerificationEmail cfg.fromEmail m.email m.firstName
      (verificationLinkOf cfg.domain m.email (uuidv4 w.randomBytes)))
  · simp
  · cases hput : w.put cfg.tableName (trackEmailSent w m.email (uuidv4 w.randomBytes)) <;>
      simp

/-- Witness for C3 at a world whose store query throws. -/
theorem duplicate_guard_fails_open_witness :
    checkDuplicateEmail defaultConfig wThrow mJohn.email = false ∧
    Effect.sesSend (sendVerificationEmail defaultConfig.fromEmail mJohn.email
        mJohn.firstName (verificationLinkOf defaultConfig.domain mJohn.email
          (uuidv4 wThrow.randomBytes))) ∈
      (handler defaultConfig wThrow ⟨[⟨SnsBody.wellFormed mJohn⟩]⟩).2 :=
  duplicate_guard_fails_open defaultConfig wThrow mJohn [] rfl

/-- Claim C4: if the SES dispatch throws (on the non-duplicate path), the
handler propagates the error and the trace holds no `put`: no tracking
record is written for that invocation. -/
theorem send_failure_writes_no_record (cfg : Config) (w : World) (m : SnsMessage)
    (rest : List SnsRecord)
    (hdup : checkDuplicateEmail cfg w m.email = false)
    (hsend : w.send (sendVerificationEmail cfg.fromEmail m.email m.firstName
        (verificationLinkOf cfg.domain m.email (uuidv4 w.randomBytes))) =
      CallOutcome.thrown) :
    handler cfg w ⟨⟨SnsBody.wellFormed m⟩ :: rest⟩ =
      (Except.error JsError.sendError,
       [Effect.query cfg.tableName m.email,
        Effect.sesSend (sendVerificationEmail cfg.fromEmail m.email m.firstName
          (verificationLinkOf cfg.domain m.email (uuidv4 w.randomBytes)))]) ∧
    ∀ t item, Effect.put t item ∉
      (handler cfg w ⟨⟨SnsBody.wellFormed m⟩ :: rest⟩).2 := by
  have hmain : handler cfg w ⟨⟨SnsBody.wellFormed m⟩ :: rest⟩ =
      (Except.error JsError.sendError,
       [Effect.query cfg.tableName m.email,
        Effect.sesSend (sendVerificationEmail cfg.fromEmail m.email m.firstName
          (verificationLinkOf cfg.domain m.email (uuidv4 w.randomBytes)))]) := by
    simp [handler, hdup, hsend]
  refine ⟨hmain, ?_⟩
  intro t item
  rw [hmain]
  simp

/-- Witness for C4 at a world whose SES dispatch throws. -/
theorem send_failure_writes_no_record_witness :
    handler defaultConfig wSendFail ⟨[⟨SnsBody.wellFormed mJohn⟩]⟩ =
      (Except.error JsError.sendError,
       [Effect.query defaultConfig.tableName mJohn.email,
        Effect.sesSend (sendVerificationEmail defaultConfig.fromEmail mJohn.email
          mJohn.firstName (verificationLinkOf defaultConfig.domain mJohn.email
            (uuidv4 wSendFail.randomBytes)))]) ∧
    ∀ t item, Effect.put t item ∉
      (handler defaultConfig wSendFail ⟨[⟨SnsBody.wellFormed mJohn⟩]⟩).2 :=
  send_failure_writes_no_record defaultConfig wSendFail mJohn [] rfl rfl

/-- Claim C7: a missing first record or an unparsable message makes the
handler throw with an empty trace: no duplicate check, no send, no put. -/
theorem malformed_event_fails_totally (cfg : Config) (w : World) (event : SnsEvent)
    (h : event.records = [] ∨
      ∃ r rest, event.records = r :: rest ∧ r.message = SnsBody.malformed) :
    (handler cfg w event).2 = [] ∧
    ∃ e, (handler cfg w event).1 = Except.error e := by
  obtain ⟨records⟩ := event
  rcases h with h | ⟨r, rest, hr, hm⟩
  · simp only at h
    subst h
    exact ⟨rfl, JsError.typeError, rfl⟩
  · simp only at hr
    subst hr
    obtain ⟨msg⟩ := r
    simp only at hm
    subst hm
    exact ⟨rfl, JsError.parseError, rfl⟩

/-- Witness for C7 at a concrete malformed event. -/
theorem malformed_event_fails_totally_witness :
    (handler defaultConfig wPlain ⟨[⟨SnsBody.malformed⟩]⟩).2 = [] ∧
    ∃ e, (handler defaultConfig wPlain ⟨[⟨SnsBody.malformed⟩]⟩).1 = Except.error e :=
  malformed_event_fails_totally defaultConfig wPlain ⟨[⟨SnsBody.malformed⟩]⟩
    (Or.inr ⟨⟨SnsBody.malformed⟩, [], rfl, rfl⟩)


/-- Claim C6: the verification link is exactly
`https://{domain}/v1/user/verify?email={encodeURIComponent email}&token={token}`
(for `a@b.com` the encoded email is `a%40b.com`), the request carrying it is
dispatched, and the link occurs verbatim in both the plain-text and the HTML
body of that request. -/
theorem verification_link_structure (cfg : Config) (w : World) (m : SnsMessage)
    (rest : List SnsRecord)
    (hdup : checkDuplicateEmail cfg w m.email = false) :
    verificationLinkOf cfg.domain m.email (uuidv4 w.randomBytes) =
      "https://" ++ cfg.domain ++ "/v1/user/verify?email=" ++
        encodeURIComponent m.email ++ "&token=" ++ uuidv4 w.randomBytes ∧
    encodeURIComponent "a@b.com" = "a%40b.com" ∧
    Effect.sesSend (sendVerificationEmail cfg.fromEmail m.email m.firstName
        (verificationLinkOf cfg.domain m.email (uuidv4 w.randomBytes))) ∈
      (handler cfg w ⟨⟨SnsBody.wellFormed m⟩ :: rest⟩).2 ∧
    List.IsInfix (verificationLinkOf cfg.domain m.email (uuidv4 w.randomBytes)).data
      (sendVerificationEmail cfg.fromEmail m.email m.firstName
        (verificationLinkOf cfg.domain m.email (uuidv4 w.randomBytes))).textData.data ∧
    List.IsInfix (verificationLinkOf cfg.domain m.email (uuidv4 w.randomBytes)).data
      (sendVerificationEmail cfg.fromEmail m.email m.firstName
        (verificationLinkOf cfg.domain m.email (uuidv4 w.randomBytes))).htmlData.data := by
  refine ⟨rfl, by decide, ?_, ?_, ?_⟩
  · simp only [handler, hdup]
    cases hsend : w.send (sendVerificationEmail cfg.fromEmail m.email m.firstName
        (verificationLinkOf cfg.domain m.email (uuidv4 w.randomBytes)))
    · simp
    · cases hput : w.put cfg.tableName (trackEmailSent w m.email (uuidv4 w.randomBytes)) <;>
        simp
  · dsimp only [sendVerificationEmail]
    rw [textBody]
    exact string_infix _ _ _
  · dsimp only [sendVerificationEmail]
    rw [htmlBody]
    exact string_infix _ _ _

/-- Witness for C6 at a concrete world and message. -/
theorem verification_link_structure_witness :
    verificationLinkOf defaultConfig.domain mJohn.email (uuidv4 wPlain.randomBytes) =
      "https://" ++ defaultConfig.domain ++ "/v1/user/verify?email=" ++
        encodeURIComponent mJohn.email ++ "&token=" ++ uuidv4 wPlain.randomBytes ∧
    encodeURIComponent "a@b.com" = "a%40b.com" ∧
    Effect.sesSend (sendVerificationEmail defaultConfig.fromEmail mJohn.email
        mJohn.firstName (verificationLinkOf defaultConfig.domain mJohn.email
          (uuidv4 wPlain.randomBytes))) ∈
      (handler defaultConfig wPlain ⟨[⟨SnsBody.wellFormed mJohn⟩]⟩).2 ∧
    List.IsInfix (verificationLinkOf defaultConfig.domain mJohn.email
        (uuidv4 wPlain.randomBytes)).data
      (sendVerificationEmail defaultConfig.fromEmail mJohn.email mJohn.firstName
        (verificationLinkOf defaultConfig.domain mJohn.email
          (uuidv4 wPlain.randomBytes))).textData.data ∧
    List.IsInfix (verificationLinkOf defaultConfig.domain mJohn.email
        (uuidv4 wPlain.randomBytes)).data
      (sendVerificationEmail defaultConfig.fromEmail mJohn.email mJohn.firstName
        (verificationLinkOf defaultConfig.domain mJohn.email
          (uuidv4 wPlain.randomBytes))).htmlData.data :=
  verification_link_structure defaultConfig wPlain mJohn [] rfl

/-- Claim C9: two events that differ only in `lastName` produce identical
handler output: same result and same trace (same query, same SES request,
same put item). `lastName` is destructured but never used. -/
theorem lastName_not_observable (cfg : Config) (w : World)
    (email firstName lastName lastName2 : String) (tk : Option String)
    (rest : List SnsRecord) :
    handler cfg w ⟨⟨SnsBody.wellFormed ⟨email, firstName, lastName, tk⟩⟩ :: rest⟩ =
      handler cfg w ⟨⟨SnsBody.wellFormed ⟨email, firstName, lastName2, tk⟩⟩ :: rest⟩ :=
  rfl

/-- Whether an effect is an SES dispatch. -/
def isSendEffect : Effect → Bool
  | Effect.sesSend _ => true
  | _ => false

/-- Whether an effect is a DynamoDB put. -/
def isPutEffect : Effect → Bool
  | Effect.put _ _ => true
  | _ => false

/-- Claim C10: only `event.Records[0]` matters — the records after the first
never change the outcome — and every invocation dispatches at most one email
and writes at most one record. -/
theorem only_first_record_processed (cfg : Config) (w : World) (r : SnsRecord)
    (rest rest2 : List SnsRecord) (event : SnsEvent) :
    handler cfg w ⟨r :: rest⟩ = handler cfg w ⟨r :: rest2⟩ ∧
    (handler cfg w event).2.countP isSendEffect ≤ 1 ∧
    (handler cfg w event).2.countP isPutEffect ≤ 1 := by
  refine ⟨rfl, ?_, ?_⟩ <;>
  · obtain ⟨records⟩ := event
    cases records with
    | nil => simp [handler]
    | cons r0 rest0 =>
      obtain ⟨msg⟩ := r0
      cases msg with
      | malformed => simp [handler]
      | wellFormed m =>
        cases hdup : checkDuplicateEmail cfg w m.email
        · simp only [handler, hdup]
          cases hsend : w.send (sendVerificationEmail cfg.fromEmail m.email m.firstName
              (verificationLinkOf cfg.domain m.email (uuidv4 w.randomBytes)))
          · simp [List.countP_cons, isSendEffect, isPutEffect]
          · cases hput : w.put cfg.tableName
                (trackEmailSent w m.email (uuidv4 w.randomBytes)) <;>
              simp [List.countP_cons, isSendEffect, isPutEffect]
        · simp [handler, hdup, List.countP_cons, isSendEffect, isPutEffect]



/-- Counterexample to claim C1: at an event whose message carries the token
the token T, the token of the persisted record (and of the link) is the
freshly generated uuid of the random bytes of the world, not T. -/
theorem supplied_token_ignored_cex :
    mWithToken.token = some "T" ∧
    (handler defaultConfig wPlain ⟨[⟨SnsBody.wellFormed mWithToken⟩]⟩).2 =
      [Effect.query "EmailVerificationTracking" "john@x.com",
       Effect.sesSend (sendVerificationEmail "noreply@ritimoradiya.me" "john@x.com"
         "John" (verificationLinkOf "dev.ritimoradiya.me" "john@x.com" zeroUuid)),
       Effect.put "EmailVerificationTracking"
         [("email", AttrVal.s "john@x.com"),
          ("token", AttrVal.s zeroUuid),
          ("sentAt", AttrVal.s "1970-01-01T00:00:00.000Z"),
          ("ttl", AttrVal.n 86400)]] ∧
    zeroUuid ≠ "T" := by
  refine ⟨rfl, ?_, by decide⟩
  rfl

/-- Claim C1 as amended: the handler never reads an event-supplied token; the
output is independent of the `token` field, and both the dispatched link and
any persisted record carry the freshly generated `uuidv4` value. -/
theorem token_always_freshly_generated (cfg : Config) (w : World)
    (email firstName lastName : String) (tk tk2 : Option String)
    (rest : List SnsRecord) :
    handler cfg w ⟨⟨SnsBody.wellFormed ⟨email, firstName, lastName, tk⟩⟩ :: rest⟩ =
      handler cfg w ⟨⟨SnsBody.wellFormed ⟨email, firstName, lastName, tk2⟩⟩ :: rest⟩ ∧
    (∀ t item, Effect.put t item ∈
        (handler cfg w ⟨⟨SnsBody.wellFormed ⟨email, firstName, lastName, tk⟩⟩ :: rest⟩).2 →
      ("token", AttrVal.s (uuidv4 w.randomBytes)) ∈ item) ∧
    (∀ req, Effect.sesSend req ∈
        (handler cfg w ⟨⟨SnsBody.wellFormed ⟨email, firstName, lastName, tk⟩⟩ :: rest⟩).2 →
      req = sendVerificationEmail cfg.fromEmail email firstName
        (verificationLinkOf cfg.domain email (uuidv4 w.randomBytes))) := by
  refine ⟨rfl, ?_, ?_⟩ <;>
  · cases hdup : checkDuplicateEmail cfg w email
    · simp only [handler, hdup]
      cases hsend : w.send (sendVerificationEmail cfg.fromEmail email firstName
          (verificationLinkOf cfg.domain email (uuidv4 w.randomBytes)))
      · simp [trackEmailSent]
      · cases hput : w.put cfg.tableName (trackEmailSent w email (uuidv4 w.randomBytes)) <;>
          simp [trackEmailSent]
    · simp [handler, hdup]

/-- Counterexample to claim C5: at a concrete non-duplicate invocation the
persisted item's attributes are `email, token, sentAt, ttl` — there is no
`expiresAt` attribute (the expiry lives in the DynamoDB TTL attribute `ttl`). -/
theorem record_field_named_ttl_cex :
    (handler defaultConfig wLater ⟨[⟨SnsBody.wellFormed mJane⟩]⟩).2 =
      [Effect.query "EmailVerificationTracking" "jane@x.com",
       Effect.sesSend (sendVerificationEmail "noreply@ritimoradiya.me" "jane@x.com"
         "Jane" (verificationLinkOf "dev.ritimoradiya.me" "jane@x.com" zeroUuid)),
       Effect.put "EmailVerificationTracking"
         [("email", AttrVal.s "jane@x.com"),
          ("token", AttrVal.s zeroUuid),
          ("sentAt", AttrVal.s "1970-01-01T00:00:00.000Z"),
          ("ttl", AttrVal.n 87400)]] ∧
    ¬ "expiresAt" ∈ ([("email", AttrVal.s "jane@x.com"),
          ("token", AttrVal.s zeroUuid),
          ("sentAt", AttrVal.s "1970-01-01T00:00:00.000Z"),
          ("ttl", AttrVal.n 87400)] : Item).map Prod.fst := by
  refine ⟨?_, by decide⟩
  rfl

/-- Claim C5 as amended: on every non-duplicate invocation whose dispatch
succeeds, the handler writes to the configured table exactly the item
`{email, token, sentAt, ttl}` where `sentAt` is the ISO rendering of the
current time and `ttl` (the expiry, in epoch seconds) is
`floor(nowMs / 1000) + 24 * 60 * 60`. -/
theorem tracking_record_shape (cfg : Config) (w : World) (m : SnsMessage)
    (rest : List SnsRecord)
    (hdup : checkDuplicateEmail cfg w m.email = false)
    (hsend : w.send (sendVerificationEmail cfg.fromEmail m.email m.firstName
        (verificationLinkOf cfg.domain m.email (uuidv4 w.randomBytes))) =
      CallOutcome.ok) :
    Effect.put cfg.tableName (trackEmailSent w m.email (uuidv4 w.randomBytes)) ∈
      (handler cfg w ⟨⟨SnsBody.wellFormed m⟩ :: rest⟩).2 ∧
    trackEmailSent w m.email (uuidv4 w.randomBytes) =
      [("email", AttrVal.s m.email),
       ("token", AttrVal.s (uuidv4 w.randomBytes)),
       ("sentAt", AttrVal.s (w.isoString w.nowMs)),
       ("ttl", AttrVal.n (w.nowMs / 1000 + 60 * 60 * 24))] ∧
    (∀ t item, Effect.put t item ∈
        (handler cfg w ⟨⟨SnsBody.wellFormed m⟩ :: rest⟩).2 →
      t = cfg.tableName ∧ item = trackEmailSent w m.email (uuidv4 w.randomBytes)) := by
  refine ⟨?_, rfl, ?_⟩ <;>
  · simp only [handler, hdup, hsend]
    cases hput : w.put cfg.tableName (trackEmailSent w m.email (uuidv4 w.randomBytes)) <;>
      simp

/-- Witness for the amended C5 at a concrete world and clock. -/
theorem tracking_record_shape_witness :
    Effect.put defaultConfig.tableName
        (trackEmailSent wLater mJane.email (uuidv4 wLater.randomBytes)) ∈
      (handler defaultConfig wLater ⟨[⟨SnsBody.wellFormed mJane⟩]⟩).2 ∧
    trackEmailSent wLater mJane.email (uuidv4 wLater.randomBytes) =
      [("email", AttrVal.s mJane.email),
       ("token", AttrVal.s (uuidv4 wLater.randomBytes)),
       ("sentAt", AttrVal.s (wLater.isoString wLater.nowMs)),
       ("ttl", AttrVal.n (wLater.nowMs / 1000 + 60 * 60 * 24))] ∧
    (∀ t item, Effect.put t item ∈
        (handler defaultConfig wLater ⟨[⟨SnsBody.wellFormed mJane⟩]⟩).2 →
      t = defaultConfig.tableName ∧
      item = trackEmailSent wLater mJane.email (uuidv4 wLater.randomBytes)) :=
  tracking_record_shape defaultConfig wLater mJane [] rfl rfl

/-- Claim C8: for an event that omits the token, the handler generates the
token as uuid v4 of the drawn random bytes (total, no error path), persists
exactly that value, and `tokenOfEntropy` being injective shows the generator
ranges over at least 2 ^ 122 distinct tokens: invocations whose drawn entropy
differs in the 122 surviving bits yield different tokens. -/
theorem fresh_token_generated_and_persisted (cfg : Config) (w : World)
    (email firstName lastName : String) (rest : List SnsRecord)
    (hdup : checkDuplicateEmail cfg w email = false)
    (hsend : w.send (sendVerificationEmail cfg.fromEmail email firstName
        (verificationLinkOf cfg.domain email (uuidv4 w.randomBytes))) =
      CallOutcome.ok) :
    Effect.put cfg.tableName (trackEmailSent w email (uuidv4 w.randomBytes)) ∈
      (handler cfg w ⟨⟨SnsBody.wellFormed ⟨email, firstName, lastName, none⟩⟩ :: rest⟩).2 ∧
    ("token", AttrVal.s (uuidv4 w.randomBytes)) ∈
      trackEmailSent w email (uuidv4 w.randomBytes) ∧
    Function.Injective tokenOfEntropy := by
  refine ⟨?_, by simp [trackEmailSent], tokenOfEntropy_injective⟩
  simp only [handler, hdup, hsend]
  cases hput : w.put cfg.tableName (trackEmailSent w email (uuidv4 w.randomBytes)) <;>
    simp

/-- Witness for C8 at a concrete world (zero random bytes). -/
theorem fresh_token_generated_and_persisted_witness :
    Effect.put defaultConfig.tableName
        (trackEmailSent wPlain "john@x.com" (uuidv4 wPlain.randomBytes)) ∈
      (handler defaultConfig wPlain
        ⟨[⟨SnsBody.wellFormed ⟨"john@x.com", "John", "Doe", none⟩⟩]⟩).2 ∧
    ("token", AttrVal.s (uuidv4 wPlain.randomBytes)) ∈
      trackEmailSent wPlain "john@x.com" (uuidv4 wPlain.randomBytes) ∧
    Function.Injective tokenOfEntropy :=
  fresh_token_generated_and_persisted defaultConfig wPlain "john@x.com" "John" "Doe"
    [] rfl rfl

end EmailVerif
